import Mathlib

/-
Verification of the dali2mqtt core logic: device scanning, per-device state
reconciliation, group/broadcast fan-out, the driver reconnection supervisor
and the health monitor.  Each definition is a shallow embedding of the
corresponding Python function; transport behaviour (responses of the DALI
driver) is passed in explicitly as data so that the control flow of the
source can be reproduced and reasoned about.
-/

namespace Dali2Mqtt

/-- Addressing modes of the DALI bus: an individual short address, a group
address, or broadcast (mirrors dali.address.Short / GearShort, Group,
Broadcast as used by the source). -/
inductive Target where
  | short (a : Nat)
  | group (g : Nat)
  | broadcast
deriving DecidableEq, Repr

/-! Device scanning (dali2mqtt.py, dali_scan).

For each candidate address 0..63 the source sends QueryControlGearPresent;
the driver either raises a DALIError (caught, address treated as absent),
returns a YesNoResponse whose value is truthy or falsy, or returns some
other response object.  On a positive YesNoResponse the source sends a
confirmation query (QueryPhysicalMinimum); a DALIError there is caught and
the address is dropped without retry. -/

/-- Outcome of the presence query for one address: positive YesNoResponse,
negative YesNoResponse, a response that is not a YesNoResponse, or a
DALIError raised by the driver. -/
inductive PresenceResult where
  | yes
  | no
  | notYesNo
  | daliError
deriving DecidableEq, Repr

/-- Outcome of the confirmation query (QueryPhysicalMinimum): the send
succeeds, or the driver raises a DALIError. -/
inductive ConfirmResult where
  | ok
  | daliError
deriving DecidableEq, Repr

/-- Body of the scan loop of dali_scan for a single candidate address:
presence query, then on a positive yes/no response the confirmation query,
appending the address only when both succeed.  A DALIError on either query
is caught in the source (outer and inner try respectively) and leaves the
accumulated list unchanged. -/
def scanStep (presence : Nat → PresenceResult) (confirm : Nat → ConfirmResult)
    (lamps : List Nat) (lamp : Nat) : List Nat :=
  match presence lamp with
  | PresenceResult.yes =>
      match confirm lamp with
      | ConfirmResult.ok => lamps ++ [lamp]
      | ConfirmResult.daliError => lamps
  | _ => lamps

/-- Embedding of dali_scan: iterate the candidate addresses 0..63 in
ascending order, accumulating the accepted addresses. -/
def dali_scan (presence : Nat → PresenceResult) (confirm : Nat → ConfirmResult) :
    List Nat :=
  (List.range 64).foldl (scanStep presence confirm) []

/-- Boolean acceptance condition of one scanned address. -/
def scanKeep (presence : Nat → PresenceResult) (confirm : Nat → ConfirmResult)
    (lamp : Nat) : Bool :=
  decide (presence lamp = PresenceResult.yes) && decide (confirm lamp = ConfirmResult.ok)

lemma scanStep_eq (presence : Nat → PresenceResult) (confirm : Nat → ConfirmResult)
    (lamps : List Nat) (lamp : Nat) :
    scanStep presence confirm lamps lamp =
      if scanKeep presence confirm lamp then lamps ++ [lamp] else lamps := by
  unfold scanStep scanKeep
  cases presence lamp <;> simp
  cases confirm lamp <;> simp

lemma dali_scan_foldl (presence : Nat → PresenceResult) (confirm : Nat → ConfirmResult)
    (l : List Nat) (acc : List Nat) :
    l.foldl (scanStep presence confirm) acc = acc ++ l.filter (scanKeep presence confirm) := by
  induction l generalizing acc with
  | nil => simp
  | cons x xs ih =>
      simp only [List.foldl_cons, List.filter_cons, ih, scanStep_eq]
      by_cases h : scanKeep presence confirm x = true <;> simp [h]

lemma dali_scan_eq_filter (presence : Nat → PresenceResult) (confirm : Nat → ConfirmResult) :
    dali_scan presence confirm = (List.range 64).filter (scanKeep presence confirm) := by
  unfold dali_scan
  simpa using dali_scan_foldl presence confirm (List.range 64) []

/-- C2: an address id appears in the scan result if and only if id is in
0..63, its presence query returned a positive yes/no response, and its
confirmation query succeeded.  Consequently a confirmation failure drops
the id (it is simply not retried within the scan), and a transport error
on the presence query of one id never removes or aborts any other id:
membership of every other id is unchanged because it depends only on that
id's own two query outcomes. -/
theorem C2_scan_membership (presence : Nat → PresenceResult) (confirm : Nat → ConfirmResult)
    (id : Nat) :
    id ∈ dali_scan presence confirm ↔
      id < 64 ∧ presence id = PresenceResult.yes ∧ confirm id = ConfirmResult.ok := by
  rw [dali_scan_eq_filter, List.mem_filter, List.mem_range]
  unfold scanKeep
  simp [and_assoc]

/-! Lamp level commands (lamp.py, Lamp.set_level / Lamp.off /
Lamp.set_level_local) and the MQTT brightness command handler
(dali2mqtt.py, on_message_brightness_cmd).

The cached lamp state relevant to these claims is the address, the dimming
range and the cached level.  Bus traffic is recorded as an explicit trace
of commands; MQTT publishes are not bus traffic and are not recorded. -/

/-- Cached state of a Lamp object (the fields used by the level commands). -/
structure Lamp where
  short_address : Target
  min_level : Nat
  max_level : Nat
  level : Nat
deriving DecidableEq, Repr

/-- One command transmitted on the DALI bus by the level-command paths. -/
inductive BusCmd where
  | dapc (t : Target) (lvl : Nat)
  | off (t : Target)
deriving DecidableEq, Repr

/-- The rescaling applied by Lamp.set_level before transmitting:
int(min_level + value * ((max_level - min_level) / 254)), evaluated in
exact arithmetic (Nat division is the floor, which agrees with int() on
the non-negative values involved). -/
def scaled (min_level max_level v : Nat) : Nat :=
  min_level + v * (max_level - min_level) / 254

/-- Failure modes of Lamp.set_level: the explicit ValueError raised on an
out-of-range rescaled value, or an exception raised by the driver send. -/
inductive SetLevelErr where
  | valueError
  | sendError
deriving DecidableEq, Repr

/-- Outcome of Lamp.set_level: the error raised (if any), the lamp state
afterwards, and the commands transmitted (or attempted) on the bus. -/
structure SetLevelResult where
  err : Option SetLevelErr
  lamp : Lamp
  trace : List BusCmd
deriving DecidableEq, Repr

/-- Embedding of Lamp.set_level.  The source computes the rescaled value,
raises ValueError when it is out of range and the commanded value is
nonzero, stores the unscaled commanded value in the level cache, and only
then sends DAPC(address, rescaled) to the driver.  The sendOk flag is the
behaviour of that send: when it raises, the cache update has already
happened. -/
def set_level (l : Lamp) (v : Nat) (sendOk : Bool) : SetLevelResult :=
  let value_scaled := scaled l.min_level l.max_level v
  if ¬ (l.min_level ≤ value_scaled ∧ value_scaled ≤ l.max_level) ∧ v ≠ 0 then
    { err := some SetLevelErr.valueError, lamp := l, trace := [] }
  else
    let l1 := { l with level := v }
    if sendOk then
      { err := none, lamp := l1, trace := [BusCmd.dapc l.short_address value_scaled] }
    else
      { err := some SetLevelErr.sendError, lamp := l1,
        trace := [BusCmd.dapc l.short_address value_scaled] }

/-- Embedding of Lamp.off: send the Off command, then zero the cache. -/
def lamp_off (l : Lamp) : Lamp × List BusCmd :=
  ({ l with level := 0 }, [BusCmd.off l.short_address])

/-- Embedding of Lamp.set_level_local: update the cache, no bus traffic. -/
def set_level_local (l : Lamp) (v : Nat) : Lamp :=
  { l with level := v }

/-- Outcome of the brightness command handler: the target lamp state, the
states of the member lamps (for a Group/Broadcast target; empty for an
Individual one), and the full bus trace of the handler. -/
structure HandlerResult where
  lamp : Lamp
  members : List Lamp
  trace : List BusCmd
deriving DecidableEq, Repr

/-- Embedding of on_message_brightness_cmd after payload parsing and lamp
lookup, with a successfully transmitting driver.  The source calls
set_level(target_level); a ValueError is caught and nothing further
happens.  Otherwise, when the cached level is 0 it additionally calls
off(), and finally every member of a Group/Broadcast target gets
set_level_local(lamp_object.level); member updates produce MQTT publishes
only, never bus commands. -/
def on_message_brightness_cmd (l : Lamp) (members : List Lamp) (v : Nat) :
    HandlerResult :=
  match set_level l v true with
  | { err := some SetLevelErr.valueError, lamp := l0, trace := tr } =>
      { lamp := l0, members := members, trace := tr }
  | { err := _, lamp := l1, trace := tr1 } =>
      let step2 := if l1.level = 0 then lamp_off l1 else (l1, [])
      let members1 := members.map (fun m => set_level_local m step2.1.level)
      { lamp := step2.1, members := members1, trace := tr1 ++ step2.2 }


/-- When the rescaled value is in range, set_level never raises ValueError:
it caches the unscaled value and sends the DAPC, the error field recording
only whether the driver send itself failed. -/
lemma set_level_inrange_eq (l : Lamp) (v : Nat) (sendOk : Bool)
    (hin : l.min_level ≤ scaled l.min_level l.max_level v ∧
           scaled l.min_level l.max_level v ≤ l.max_level) :
    set_level l v sendOk =
      { err := if sendOk then none else some SetLevelErr.sendError,
        lamp := { l with level := v },
        trace := [BusCmd.dapc l.short_address (scaled l.min_level l.max_level v)] } := by
  simp only [set_level]
  rw [if_neg (fun hc => hc.1 hin)]
  cases sendOk <;> simp

/-- Mapping the level projection over lamps whose level was just overwritten
yields the constant list of the written value. -/
lemma map_level_after_set (v : Nat) (members : List Lamp) :
    List.map (Lamp.level ∘ fun m => { m with level := v }) members =
      List.replicate members.length v := by
  induction members with
  | nil => rfl
  | cons m ms ih => simp [List.replicate_succ, ih]

/-- C9: set_level transmits the rescaled value on the bus while caching the
unscaled commanded value v; it raises ValueError exactly when the rescaled
value falls outside the dimming range and v is nonzero; and the cache is
updated to v before the transport send is attempted, so even a failing
send leaves the cache at v. -/
theorem C9_set_level_spec (l : Lamp) (v : Nat) (sendOk : Bool) :
    ((set_level l v sendOk).err = some SetLevelErr.valueError ↔
      ¬ (l.min_level ≤ scaled l.min_level l.max_level v ∧
         scaled l.min_level l.max_level v ≤ l.max_level) ∧ v ≠ 0) ∧
    ((set_level l v sendOk).err ≠ some SetLevelErr.valueError →
      (set_level l v sendOk).lamp.level = v ∧
      (set_level l v sendOk).trace =
        [BusCmd.dapc l.short_address (scaled l.min_level l.max_level v)]) := by
  by_cases hin : l.min_level ≤ scaled l.min_level l.max_level v ∧
      scaled l.min_level l.max_level v ≤ l.max_level
  · rw [set_level_inrange_eq l v sendOk hin]
    cases sendOk <;> simp [hin.1, hin.2]
  · by_cases hv : v = 0
    · simp only [set_level]
      rw [if_neg (fun hc => hc.2 hv)]
      cases sendOk <;> simp [hv]
    · simp only [set_level]
      rw [if_pos ⟨hin, hv⟩]
      simp [hin, hv]

/-- Witness input: an individual lamp with full dimming range. -/
def lampA : Lamp := { short_address := Target.short 4, min_level := 0, max_level := 254, level := 7 }

/-- C9 witness: lampA commanded to 100 with a failing send: no ValueError
(the rescaled value 100 is in range), the cache holds 100 although the
send failed, and a DAPC with level 100 was attempted on the bus. -/
theorem C9_set_level_spec_witness :
    (set_level lampA 100 false).err ≠ some SetLevelErr.valueError ∧
    (set_level lampA 100 false).lamp.level = 100 ∧
    (set_level lampA 100 false).trace = [BusCmd.dapc (Target.short 4) 100] := by
  have h := C9_set_level_spec lampA 100 false
  have hne : (set_level lampA 100 false).err ≠ some SetLevelErr.valueError := by decide
  refine ⟨hne, (h.2 hne).1, ?_⟩
  have := (h.2 hne).2
  simpa [lampA] using this

/-- C1: commanding a nonzero in-range level on a Group or Broadcast address
updates the cached level of every member lamp to the commanded value, and
the whole handler transmits exactly one bus command: the DAPC sent to the
virtual address itself.  Member updates go through set_level_local and add
no bus traffic. -/
theorem C1_group_command_fanout (l : Lamp) (members : List Lamp) (v : Nat)
    (hv : v ≠ 0)
    (hin : l.min_level ≤ scaled l.min_level l.max_level v ∧
           scaled l.min_level l.max_level v ≤ l.max_level) :
    (on_message_brightness_cmd l members v).members.map Lamp.level =
        members.map (fun _ => v) ∧
    (on_message_brightness_cmd l members v).trace =
        [BusCmd.dapc l.short_address (scaled l.min_level l.max_level v)] ∧
    (on_message_brightness_cmd l members v).lamp.level = v := by
  unfold on_message_brightness_cmd
  rw [set_level_inrange_eq l v true hin]
  simp [set_level_local, lamp_off, hv, Function.comp, map_level_after_set]

/-- Witness input: the Group 3 virtual lamp. -/
def group3 : Lamp := { short_address := Target.group 3, min_level := 0, max_level := 254, level := 0 }

/-- Witness input: member lamp of Group 3 at short address 4. -/
def member4 : Lamp := { short_address := Target.short 4, min_level := 0, max_level := 254, level := 10 }

/-- Witness input: member lamp of Group 3 at short address 7. -/
def member7 : Lamp := { short_address := Target.short 7, min_level := 0, max_level := 254, level := 20 }

/-- C1 witness: Group 3 contains the lamps at addresses 4 and 7 (cached
levels 10 and 20); commanding Group 3 to level 50 leaves both members
cached at 50 and issues exactly one bus command, the DAPC to the group
address. -/
theorem C1_group_command_fanout_witness :
    (on_message_brightness_cmd group3 [member4, member7] 50).members.map Lamp.level
        = [50, 50] ∧
    (on_message_brightness_cmd group3 [member4, member7] 50).trace
        = [BusCmd.dapc (Target.group 3) 50] ∧
    (on_message_brightness_cmd group3 [member4, member7] 50).lamp.level = 50 := by
  have h := C1_group_command_fanout group3 [member4, member7] 50 (by decide) (by decide)
  refine ⟨by simpa using h.1, ?_, h.2.2⟩
  have := h.2.1
  simpa [group3] using this

/-- Witness input: the Group 3 virtual lamp with a nonzero cached level. -/
def group3on : Lamp := { short_address := Target.group 3, min_level := 0, max_level := 254, level := 120 }

/-- C6 counterexample: commanding level 0 on a group lamp with range 0..254
transmits a DAPC command with level 0 (the rescaled minimum) on the bus
before the Off command, refuting the claim that no dim-to-0 or
dim-to-minimum level command is issued and that the bus traffic consists
of the Off command alone. -/
theorem C6_counterexample :
    BusCmd.dapc (Target.group 3) 0 ∈ (on_message_brightness_cmd group3on [] 0).trace ∧
    (on_message_brightness_cmd group3on [] 0).trace ≠ [BusCmd.off (Target.group 3)] := by
  decide

/-- C6 amended: commanding level 0 is treated as a turn-off, with the Off
command issued and the cached level ending at 0 (and every member cache
set to 0), but the handler first transmits the DAPC produced by
set_level(0), whose rescaled value is the lamp's min_level; so a
dim-to-minimum command precedes the Off rather than being replaced by it. -/
theorem C6_level_zero_off (l : Lamp) (members : List Lamp) :
    (on_message_brightness_cmd l members 0).lamp.level = 0 ∧
    (on_message_brightness_cmd l members 0).trace =
        [BusCmd.dapc l.short_address l.min_level, BusCmd.off l.short_address] ∧
    (on_message_brightness_cmd l members 0).members.map Lamp.level =
        members.map (fun _ => 0) := by
  have hs : scaled l.min_level l.max_level 0 = l.min_level := by
    simp [scaled]
  have hin : l.min_level ≤ scaled l.min_level l.max_level 0 ∧
      scaled l.min_level l.max_level 0 ≤ l.max_level ∨ True := Or.inr trivial
  unfold on_message_brightness_cmd
  simp only [set_level]
  rw [if_neg (fun hc => hc.2 rfl)]
  simp [hs, lamp_off, set_level_local, Function.comp, map_level_after_set]

/-! Reconciliation step 1: dimming limits (lamp.py, Lamp._initialize_limits,
written here as init_limits).

Each of the three queries (QueryPhysicalMinimum, QueryMinLevel,
QueryMaxLevel) can: return a response whose value converts with int()
(num); return a response whose value makes int() raise ValueError or
TypeError, e.g. None after a timeout or the MASK object (nonNumeric); or
the driver send itself can raise, e.g. a DALIError (raises).  The source
wraps only the int() conversions in try/except (ValueError, TypeError):
the physical-minimum send sits outside its try block altogether, and the
except clauses of the other two do not catch driver exceptions, so a
raising send propagates out of the method and aborts the enclosing
Lamp.init() reconciliation (create_mqtt_lamp then drops the device). -/

/-- Outcome of one limits query. -/
inductive QueryOutcome where
  | num (n : Int)
  | nonNumeric
  | raises
deriving DecidableEq, Repr

/-- The dimming limits record produced by reconciliation step 1. -/
structure LimitsState where
  min_physical_level : Int
  min_level : Int
  max_level : Int
deriving DecidableEq, Repr

/-- One field of init_limits: the int() conversion of the response value,
with the documented default on a ValueError/TypeError, and a propagating
exception when the driver send raises. -/
def limit_field (q : QueryOutcome) (dflt : Int) : Except Unit Int :=
  match q with
  | QueryOutcome.num n => Except.ok n
  | QueryOutcome.nonNumeric => Except.ok dflt
  | QueryOutcome.raises => Except.error ()

/-- Embedding of Lamp._initialize_limits: the three queries in source
order; a raising send aborts the whole step (and with it the enclosing
reconciliation), a non-numeric value degrades only its own field to the
default (0, 0, 254 respectively). -/
def init_limits (qPhys qMin qMax : QueryOutcome) : Except Unit LimitsState :=
  match limit_field qPhys 0 with
  | Except.error e => Except.error e
  | Except.ok p =>
      match limit_field qMin 0 with
      | Except.error e => Except.error e
      | Except.ok mn =>
          match limit_field qMax 254 with
          | Except.error e => Except.error e
          | Except.ok mx =>
              Except.ok { min_physical_level := p, min_level := mn, max_level := mx }

/-- The value a limits field ends up with when its query does not raise. -/
def limit_value (q : QueryOutcome) (dflt : Int) : Int :=
  match q with
  | QueryOutcome.num n => n
  | QueryOutcome.nonNumeric => dflt
  | QueryOutcome.raises => dflt

/-- C3 counterexample: a transport-level exception on the physical-minimum
query (the other two queries answering normally) makes init_limits itself
raise, aborting the whole reconciliation of the device instead of
degrading the one field to its default 0. -/
theorem C3_counterexample :
    init_limits QueryOutcome.raises (QueryOutcome.num 1) (QueryOutcome.num 254)
      = Except.error () ∧
    ¬ (init_limits QueryOutcome.raises (QueryOutcome.num 1)
        (QueryOutcome.num 254)).isOk := by
  exact ⟨rfl, by simp [init_limits, limit_field, Except.isOk, Except.toBool]⟩

/-- C3 amended: step 1 of reconciliation is fault-tolerant only against
non-numeric or missing response values: those degrade exactly their own
field to the documented default (0, 0, 254) and never abort; but an
exception raised by the driver during any of the three queries propagates
and aborts the whole reconciliation of the device. -/
theorem C3_limits_fault_tolerance (qPhys qMin qMax : QueryOutcome) :
    init_limits qPhys qMin qMax =
      if qPhys = QueryOutcome.raises ∨ qMin = QueryOutcome.raises ∨
          qMax = QueryOutcome.raises then
        Except.error ()
      else
        Except.ok { min_physical_level := limit_value qPhys 0,
                    min_level := limit_value qMin 0,
                    max_level := limit_value qMax 254 } := by
  cases qPhys <;> cases qMin <;> cases qMax <;>
    simp [init_limits, limit_field, limit_value]

/-! Reconciliation step 4: color temperature (lamp.py,
Lamp._initialize_color_temperature, written here as init_color_temp).

The three DT8 sequences (coolest, warmest, current) each either return a
value that is None or an int (val), or raise / return something int()
chokes on (raises) - the whole block is wrapped in a single try/except
Exception that nulls all three fields.  After successful queries the
source disables the feature when coolest or warmest is None or zero; the
current value is stored as returned and is never validated. -/

/-- Outcome of one DT8 colour-value sequence. -/
inductive SeqOutcome where
  | val (v : Option Int)
  | raises
deriving DecidableEq, Repr

/-- The colour-temperature fields of a reconciled device. -/
structure ColorTempState where
  tc_coolest : Option Int
  tc_warmest : Option Int
  tc : Option Int
deriving DecidableEq, Repr

/-- Embedding of Lamp._initialize_color_temperature. -/
def init_color_temp (qc qw qt : SeqOutcome) : ColorTempState :=
  match qc, qw, qt with
  | SeqOutcome.val c, SeqOutcome.val w, SeqOutcome.val t =>
      if c = none ∨ w = none ∨ c = some 0 ∨ w = some 0 then
        { tc_coolest := none, tc_warmest := none, tc := none }
      else
        { tc_coolest := c, tc_warmest := w, tc := t }
  | _, _, _ => { tc_coolest := none, tc_warmest := none, tc := none }

/-- The enabling condition the source actually implements: all three
queries answered without raising, and coolest and warmest are non-null and
non-zero.  The current value is not consulted. -/
def ct_feature_enabled (qc qw qt : SeqOutcome) : Bool :=
  match qc, qw, qt with
  | SeqOutcome.val (some c), SeqOutcome.val (some w), SeqOutcome.val _ =>
      decide (c ≠ 0) && decide (w ≠ 0)
  | _, _, _ => false

/-- The raw value of a sequence outcome (none when it raised). -/
def seq_value (q : SeqOutcome) : Option Int :=
  match q with
  | SeqOutcome.val v => v
  | SeqOutcome.raises => none

/-- C4 counterexample: with coolest 100, warmest 500 and current 600 the
reconciled record keeps both bounds and stores the out-of-range current
value, so the feature is present although the current value does not lie
within the bounds - refuting both directions of the claimed equivalence
(the claim would require this outcome to disable the feature entirely). -/
theorem C4_counterexample :
    init_color_temp (SeqOutcome.val (some 100)) (SeqOutcome.val (some 500))
        (SeqOutcome.val (some 600)) =
      { tc_coolest := some 100, tc_warmest := some 500, tc := some 600 } ∧
    ¬ ((600 : Int) ≤ 500) := by
  exact ⟨rfl, by decide⟩

/-- C4 amended: the colour-temperature feature is enabled if and only if
the three queries answer without raising and coolest and warmest are both
non-null and non-zero; any other outcome nulls all three fields.  When
enabled, the current value is stored exactly as the query returned it,
without being validated against the bounds (it may be null or out of
range). -/
theorem C4_color_temp_enable (qc qw qt : SeqOutcome) :
    init_color_temp qc qw qt =
      if ct_feature_enabled qc qw qt then
        { tc_coolest := seq_value qc, tc_warmest := seq_value qw, tc := seq_value qt }
      else
        { tc_coolest := none, tc_warmest := none, tc := none } := by
  cases qc with
  | raises => rfl
  | val c =>
    cases qw with
    | raises => cases c <;> rfl
    | val w =>
      cases qt with
      | raises => cases c <;> cases w <;> rfl
      | val t =>
        cases c with
        | none => simp [init_color_temp, ct_feature_enabled]
        | some a =>
          cases w with
          | none => simp [init_color_temp, ct_feature_enabled]
          | some b =>
            by_cases ha : a = 0 <;> by_cases hb : b = 0 <;>
              simp [init_color_temp, ct_feature_enabled, seq_value, ha, hb]

/-! Driver reconnection (driver_manager.py, DriverManager._attempt_reconnection,
written here as attempt_reconnection).

The method reads and writes reconnect_attempt, max_reconnect_attempts and
is_connected.  Environment behaviour during one attempt (outcome of the
disconnect/connect block and of the 10s wait for the connected event) is
an explicit parameter.  Errors while disconnecting are swallowed by the
source; every other exception inside the outer try is caught and turns
into a False return, so the procedure never raises.  The counter is
modified only here and in ensure_connected, which resets it to 0 on a
live connection. -/

/-- The mutable DriverManager fields used by the reconnection procedure. -/
structure DriverManagerState where
  max_reconnect_attempts : Nat
  reconnect_attempt : Nat
  is_connected : Bool
deriving DecidableEq, Repr

/-- Behaviour of the environment during one reconnection attempt. -/
inductive ReconnectEnv where
  | connectEventOk
  | connectNoEvent
  | connectEventTimeout
  | noConnectAttr
  | raisesDuring
deriving DecidableEq, Repr

/-- Result of one reconnection attempt: the backoff delay waited (none when
the cap was already exhausted and the method returned immediately), the
boolean the method returns, and the updated state. -/
structure ReconnectResult where
  backoff_delay : Option Nat
  success : Bool
  state : DriverManagerState
deriving DecidableEq, Repr

/-- Embedding of DriverManager._attempt_reconnection: if the counter has
reached the cap, return False untouched; otherwise increment the counter,
wait min(2 ^ counter, 30) seconds, and run the disconnect/connect block,
whose outcome decides success.  Success sets is_connected and resets the
counter to 0. -/
def attempt_reconnection (s : DriverManagerState) (env : ReconnectEnv) :
    ReconnectResult :=
  if s.reconnect_attempt ≥ s.max_reconnect_attempts then
    { backoff_delay := none, success := false, state := s }
  else
    let s1 := { s with reconnect_attempt := s.reconnect_attempt + 1 }
    let backoff_delay := min (2 ^ s1.reconnect_attempt) 30
    match env with
    | ReconnectEnv.connectEventOk =>
        { backoff_delay := some backoff_delay, success := true,
          state := { s1 with is_connected := true, reconnect_attempt := 0 } }
    | ReconnectEnv.connectNoEvent =>
        { backoff_delay := some backoff_delay, success := true,
          state := { s1 with is_connected := true, reconnect_attempt := 0 } }
    | ReconnectEnv.connectEventTimeout =>
        { backoff_delay := some backoff_delay, success := false, state := s1 }
    | ReconnectEnv.noConnectAttr =>
        { backoff_delay := some backoff_delay, success := false, state := s1 }
    | ReconnectEnv.raisesDuring =>
        { backoff_delay := some backoff_delay, success := false, state := s1 }

/-- C5: the attempt counter never exceeds the configured cap (it is checked
before being incremented); a successful reconnection resets it to 0; the
k-th attempt (counter value k after the increment) waits min(2 ^ k, 30)
seconds before acting; and an exhausted cap reports failure by returning
False with the state untouched - the procedure is total, it never
raises. -/
theorem C5_reconnection_policy (s : DriverManagerState) (env : ReconnectEnv) :
    (s.reconnect_attempt ≤ s.max_reconnect_attempts →
      (attempt_reconnection s env).state.reconnect_attempt ≤ s.max_reconnect_attempts) ∧
    ((attempt_reconnection s env).success = true →
      (attempt_reconnection s env).state.reconnect_attempt = 0) ∧
    (s.reconnect_attempt < s.max_reconnect_attempts →
      (attempt_reconnection s env).backoff_delay =
        some (min (2 ^ (s.reconnect_attempt + 1)) 30)) ∧
    (s.reconnect_attempt ≥ s.max_reconnect_attempts →
      attempt_reconnection s env =
        { backoff_delay := none, success := false, state := s }) := by
  unfold attempt_reconnection
  by_cases h : s.reconnect_attempt ≥ s.max_reconnect_attempts
  · rw [if_pos h]
    exact ⟨fun hle => hle, fun hs => by simp at hs, fun hlt => by omega, fun _ => rfl⟩
  · rw [if_neg h]
    cases env <;>
      exact ⟨fun _ => by simp <;> omega, fun hs => by simp_all, fun _ => by simp,
        fun hge => absurd hge h⟩

/-- A driver-manager state with the default cap 5 and counter 2. -/
def dmState2 : DriverManagerState :=
  { max_reconnect_attempts := 5, reconnect_attempt := 2, is_connected := false }

/-- A driver-manager state whose counter has reached the cap 5. -/
def dmState5 : DriverManagerState :=
  { max_reconnect_attempts := 5, reconnect_attempt := 5, is_connected := false }

/-- C5 witness: with cap 5 and counter 2, a successful attempt waits
min(2 ^ 3, 30) = 8 seconds, resets the counter to 0 and stays within the
cap; with the counter already at the cap, the call returns False with the
state untouched and no delay. -/
theorem C5_reconnection_policy_witness :
    (attempt_reconnection dmState2 ReconnectEnv.connectEventOk).state.reconnect_attempt ≤ 5 ∧
    (attempt_reconnection dmState2 ReconnectEnv.connectEventOk).state.reconnect_attempt = 0 ∧
    (attempt_reconnection dmState2 ReconnectEnv.connectEventOk).backoff_delay = some 8 ∧
    attempt_reconnection dmState5 ReconnectEnv.connectEventTimeout =
      { backoff_delay := none, success := false, state := dmState5 } := by
  have h1 := C5_reconnection_policy dmState2 ReconnectEnv.connectEventOk
  have h2 := C5_reconnection_policy dmState5 ReconnectEnv.connectEventTimeout
  refine ⟨h1.1 (by decide), h1.2.1 (by decide), ?_, h2.2.2.2 (by decide)⟩
  have h3 := h1.2.2.1 (by decide)
  simpa [dmState2] using h3

/-! Health monitoring (health_monitor.py, HealthMonitor).

Timestamps are modelled as plain naturals supplied by the caller. -/

/-- The four coarse bridge statuses. -/
inductive BridgeStatus where
  | online
  | degraded
  | offline
  | reconnecting
deriving DecidableEq, Repr

/-- The HealthMonitor fields. -/
structure HealthMonitor where
  check_interval : Nat
  last_successful_dali_command : Nat
  last_successful_mqtt_publish : Nat
  consecutive_failures : Nat
  max_consecutive_failures : Nat
  status : BridgeStatus
deriving DecidableEq, Repr

/-- Embedding of HealthMonitor.record_dali_command_success. -/
def record_dali_command_success (h : HealthMonitor) (now : Nat) : HealthMonitor :=
  let h1 := { h with last_successful_dali_command := now, consecutive_failures := 0 }
  if h1.status ≠ BridgeStatus.online then { h1 with status := BridgeStatus.online } else h1

/-- Embedding of HealthMonitor.record_dali_command_failure: increment the
single shared consecutive-failure counter; when it has reached the
threshold and the status is Online, transition to Degraded. -/
def record_dali_command_failure (h : HealthMonitor) : HealthMonitor :=
  let h1 := { h with consecutive_failures := h.consecutive_failures + 1 }
  if h1.consecutive_failures ≥ h1.max_consecutive_failures then
    if h1.status = BridgeStatus.online then { h1 with status := BridgeStatus.degraded }
    else h1
  else h1

/-- Embedding of HealthMonitor.record_mqtt_publish_success. -/
def record_mqtt_publish_success (h : HealthMonitor) (now : Nat) : HealthMonitor :=
  { h with last_successful_mqtt_publish := now }

/-- Embedding of HealthMonitor.record_mqtt_publish_failure: no counter is
touched; the status is set to Degraded unconditionally. -/
def record_mqtt_publish_failure (h : HealthMonitor) : HealthMonitor :=
  { h with status := BridgeStatus.degraded }

/-- A fresh health monitor: online, no failures, threshold 3. -/
def healthMonitor0 : HealthMonitor :=
  { check_interval := 30, last_successful_dali_command := 0,
    last_successful_mqtt_publish := 0, consecutive_failures := 0,
    max_consecutive_failures := 3, status := BridgeStatus.online }

/-- A health monitor currently in the Reconnecting status. -/
def healthMonitorRec : HealthMonitor :=
  { healthMonitor0 with status := BridgeStatus.reconnecting }

/-- C7 counterexample: a single MQTT publish failure on a fresh monitor
sets the status to Degraded although the consecutive-failure count stays
at 0, below the threshold 3 - no publish-channel counter exists and none
is incremented - and it sets Degraded even when the status is not Online
(here Reconnecting). -/
theorem C7_counterexample :
    (record_mqtt_publish_failure healthMonitor0).status = BridgeStatus.degraded ∧
    (record_mqtt_publish_failure healthMonitor0).consecutive_failures = 0 ∧
    healthMonitor0.max_consecutive_failures = 3 ∧
    healthMonitorRec.status ≠ BridgeStatus.online ∧
    (record_mqtt_publish_failure healthMonitorRec).status = BridgeStatus.degraded := by
  decide

/-- C7 amended: a bus-command failure increments the single shared
consecutive-failure counter and transitions the status to Degraded exactly
when that counter reaches the threshold while the status is Online; an
MQTT publish failure leaves the counter unchanged and sets the status to
Degraded unconditionally, whatever the counter or current status. -/
theorem C7_failure_recording (h : HealthMonitor) :
    (record_dali_command_failure h).consecutive_failures = h.consecutive_failures + 1 ∧
    (record_dali_command_failure h).status =
      (if h.consecutive_failures + 1 ≥ h.max_consecutive_failures ∧
          h.status = BridgeStatus.online
       then BridgeStatus.degraded else h.status) ∧
    (record_mqtt_publish_failure h).consecutive_failures = h.consecutive_failures ∧
    (record_mqtt_publish_failure h).status = BridgeStatus.degraded := by
  unfold record_dali_command_failure record_mqtt_publish_failure
  refine ⟨?_, ?_, rfl, rfl⟩ <;>
    by_cases h1 : h.consecutive_failures + 1 ≥ h.max_consecutive_failures <;>
    by_cases h2 : h.status = BridgeStatus.online <;>
    simp [h1, h2]

/-! Actual-level queries with retry (lamp.py,
Lamp._query_actual_level_with_retry reached through Lamp._get_actual_level,
and Lamp.get_level).

A query response value is a number that int() accepts (num), the MASK
sentinel (mask), or some other non-numeric value (invalid).  Delays are
recorded in tenths of a second ([0.2, 0.4, 0.8] becomes [2, 4, 8]). -/

/-- The decoded value of one QueryActualLevel response. -/
inductive LevelResp where
  | num (n : Nat)
  | mask
  | invalid
deriving DecidableEq, Repr

/-- Result of the reconciliation-time level query: the level stored, the
number of QueryActualLevel commands sent, and the sleeps performed. -/
structure LevelQueryResult where
  level : Nat
  queries : Nat
  delays : List Nat
deriving DecidableEq, Repr

/-- The retry delays of _query_actual_level_with_retry, in tenths. -/
def retry_delays : List Nat := [2, 4, 8]

/-- The retry loop of Lamp._query_actual_level_with_retry: one query per
iteration; a numeric value is stored and ends the loop; MASK retries after
the attempt's delay unless this was the last attempt, which stores 254;
any other non-numeric value stores 254 immediately. -/
def query_level_go (resp : Nat → LevelResp) (max_retries attempt : Nat) :
    LevelQueryResult :=
  match resp attempt with
  | LevelResp.num n => { level := n, queries := 1, delays := [] }
  | LevelResp.invalid => { level := 254, queries := 1, delays := [] }
  | LevelResp.mask =>
      if h : attempt + 1 < max_retries then
        let rest := query_level_go resp max_retries (attempt + 1)
        { level := rest.level, queries := rest.queries + 1,
          delays := retry_delays.getD attempt 0 :: rest.delays }
      else
        { level := 254, queries := 1, delays := [] }
termination_by max_retries - attempt
decreasing_by omega

/-- Embedding of Lamp._query_actual_level_with_retry: up to 3 attempts. -/
def query_actual_level_with_retry (resp : Nat → LevelResp) : LevelQueryResult :=
  query_level_go resp 3 0

/-- Embedding of Lamp._get_actual_level: read the status byte; bit 2 means
lamp on, bit 4 means fade in progress.  An off lamp is recorded at level 0
with no level query; an on lamp runs the retry loop, preceded by a 0.5s
wait when a fade is running. -/
def get_actual_level (statusByte : Nat) (resp : Nat → LevelResp) :
    LevelQueryResult :=
  if statusByte &&& 4 = 0 then { level := 0, queries := 0, delays := [] }
  else
    let base := query_actual_level_with_retry resp
    if statusByte &&& 16 ≠ 0 then { base with delays := 5 :: base.delays } else base

/-- Status byte 0b00000100 means the lamp is on with no fade running, so
the reconciliation-time query is exactly the retry loop. -/
lemma get_actual_level_status4 (resp : Nat → LevelResp) :
    get_actual_level 4 resp = query_actual_level_with_retry resp := by
  have h1 : (4 : Nat) &&& 4 = 4 := by decide
  have h2 : (4 : Nat) &&& 16 = 0 := by decide
  simp [get_actual_level, h1, h2]

/-- C8: for a device whose status byte is 0b00000100 (on, no fade): when
the level query answers MASK, MASK, then 128, the reconciled level is 128
with exactly three queries sent and the two increasing retry delays slept;
when all three attempts answer MASK the level falls back to 254 (still
three queries); and when the first non-MASK answer within the attempts is
some other non-numeric value the level falls back to 254 immediately. -/
theorem C8_level_retry (resp : Nat → LevelResp) :
    (resp 0 = LevelResp.mask → resp 1 = LevelResp.mask → resp 2 = LevelResp.num 128 →
      get_actual_level 4 resp = { level := 128, queries := 3, delays := [2, 4] }) ∧
    (resp 0 = LevelResp.mask → resp 1 = LevelResp.mask → resp 2 = LevelResp.mask →
      get_actual_level 4 resp = { level := 254, queries := 3, delays := [2, 4] }) ∧
    (∀ k, k < 3 → (∀ j, j < k → resp j = LevelResp.mask) → resp k = LevelResp.invalid →
      (get_actual_level 4 resp).level = 254) := by
  refine ⟨fun h0 h1 h2 => ?_, fun h0 h1 h2 => ?_, fun k hk hj hkv => ?_⟩
  · rw [get_actual_level_status4]
    simp [query_actual_level_with_retry, query_level_go, h0, h1, h2, retry_delays]
  · rw [get_actual_level_status4]
    simp [query_actual_level_with_retry, query_level_go, h0, h1, h2, retry_delays]
  · rw [get_actual_level_status4]
    interval_cases k
    · simp [query_actual_level_with_retry, query_level_go, hkv]
    · have h0 := hj 0 (by omega)
      simp [query_actual_level_with_retry, query_level_go, h0, hkv, retry_delays]
    · have h0 := hj 0 (by omega)
      have h1 := hj 1 (by omega)
      simp [query_actual_level_with_retry, query_level_go, h0, h1, hkv, retry_delays]

/-- C8 witness: the scenario response stream MASK, MASK, 128 reconciles to
level 128 with three queries, and the all-MASK stream to 254; an invalid
first answer also gives 254. -/
theorem C8_level_retry_witness :
    get_actual_level 4 (fun a => if a < 2 then LevelResp.mask else LevelResp.num 128) =
      { level := 128, queries := 3, delays := [2, 4] } ∧
    get_actual_level 4 (fun _ => LevelResp.mask) =
      { level := 254, queries := 3, delays := [2, 4] } ∧
    (get_actual_level 4 (fun _ => LevelResp.invalid)).level = 254 := by
  refine ⟨?_, ?_, ?_⟩
  · exact (C8_level_retry (fun a => if a < 2 then LevelResp.mask else LevelResp.num 128)).1
      (by decide) (by decide) (by decide)
  · exact (C8_level_retry (fun _ => LevelResp.mask)).2.1 rfl rfl rfl
  · exact (C8_level_retry (fun _ => LevelResp.invalid)).2.2 0 (by omega)
      (fun j hj => absurd hj (by omega)) rfl

/-- The retry loop of Lamp.get_level: one query per iteration; a numeric
value is cached and returned; MASK retries on the first attempt and keeps
the cached value on the last; any other non-numeric value breaks out of
the loop at once, keeping the cached value. -/
def get_level_go (resp : Nat → LevelResp) (cached : Nat) (max_retries attempt : Nat) :
    Nat :=
  match resp attempt with
  | LevelResp.num n => n
  | LevelResp.invalid => cached
  | LevelResp.mask =>
      if h : attempt + 1 < max_retries then
        get_level_go resp cached max_retries (attempt + 1)
      else cached
termination_by max_retries - attempt
decreasing_by omega

/-- Embedding of Lamp.get_level: up to 2 attempts, starting from the
currently cached level. -/
def get_level (resp : Nat → LevelResp) (cached : Nat) : Nat :=
  get_level_go resp cached 2 0

/-- C10: outside reconciliation, get_level keeps and returns the cached
level unchanged when the driver answers MASK on both of its 2 attempts,
when the first answer is some other non-numeric value, and when MASK is
followed by such a value; only a numeric answer replaces the cache.  In
particular the cached value is never defaulted to 254. -/
theorem C10_get_level_keeps_cached (resp : Nat → LevelResp) (cached : Nat) :
    (resp 0 = LevelResp.mask → resp 1 = LevelResp.mask →
      get_level resp cached = cached) ∧
    (resp 0 = LevelResp.invalid → get_level resp cached = cached) ∧
    (resp 0 = LevelResp.mask → resp 1 = LevelResp.invalid →
      get_level resp cached = cached) ∧
    (∀ n, resp 0 = LevelResp.num n → get_level resp cached = n) := by
  refine ⟨fun h0 h1 => ?_, fun h0 => ?_, fun h0 h1 => ?_, fun n h0 => ?_⟩ <;>
    simp [get_level, get_level_go, h0]
  · simp [get_level_go, h1]
  · simp [get_level_go, h1]

/-- C10 witness: a lamp cached at 42 whose level query answers MASK twice
returns 42, not the reconciliation default 254. -/
theorem C10_get_level_keeps_cached_witness :
    get_level (fun _ => LevelResp.mask) 42 = 42 ∧ (42 : Nat) ≠ 254 := by
  exact ⟨(C10_get_level_keeps_cached (fun _ => LevelResp.mask) 42).1 rfl rfl, by decide⟩

end Dali2Mqtt
